import Mathlib

/-!
Verification development for the D&D Party Wallet ledger.

The repository has two Python source files sharing one ledger core:
- `src/DnDwallet.py`: in-session variant; `convert_to_cp` / `convert_from_cp`
  codec, `update_wallet` mutation on a `profiles` dict, a Create Profile
  handler, and a party-total fold.
- `src/app.py`: Supabase variant; `safe_int`-guarded codec,
  `update_wallet_supabase`, and a form-submit handler that validates the
  label and rejects zero amounts before calling the engine.

Python `//` and `%` with the positive literal divisors 1000/100/10 used
here agree with Lean `Int` division and modulo (both are floor division
with a non-negative remainder for positive divisors), so the codec is
embedded directly on `Int`.

Python runtime values reaching `safe_int` and the unguarded
`convert_to_cp` are modelled by the fragment `PyVal` (an integer or the
non-numeric value `None`); a Python `TypeError` is modelled as `none` in
an `Option` result.
-/

/-- String constants of the source, bound once so concrete inputs reuse them. -/
def addStr : String := "Add"

def deductStr : String := "Deduct"

def addedStr : String := "Added"

def deductedStr : String := "Deducted"

def emptyStr : String := ""

/-- A four-denomination currency amount: the `wallet` dicts of
`DnDwallet.py` and the denomination columns of a Supabase `wallets` row. -/
structure CurrencyAmount where
  platinum : Int
  gold : Int
  silver : Int
  copper : Int
deriving DecidableEq

def zeroAmount : CurrencyAmount :=
  { platinum := 0, gold := 0, silver := 0, copper := 0 }

/-- `DnDwallet.py` line 13: `convert_to_cp(platinum=0, gold=0, silver=0, copper=0)`
restricted to integer field values (the only values the engine ever passes). -/
def convert_to_cp (a : CurrencyAmount) : Int :=
  a.platinum * 1000 + a.gold * 100 + a.silver * 10 + a.copper

/-- `convert_from_cp(total_cp)` of both files (`DnDwallet.py` lines 16-21,
`app.py` lines 46-54; `app.py` first applies `safe_int` to `total_cp`,
which is the identity on the integer totals modelled here). -/
def convert_from_cp (total_cp : Int) : CurrencyAmount :=
  { platinum := total_cp / 1000
    gold := (total_cp % 1000) / 100
    silver := (total_cp % 100) / 10
    copper := total_cp % 10 }

/-- A Python runtime value as seen by the codec, restricted to the
fragment needed here: an `int`, or the non-numeric value `None`. -/
inductive PyVal where
  | vint (n : Int)
  | vnone
deriving DecidableEq

/-- `app.py` lines 30-35: `safe_int(x)` returns `int(x)`, or `0` when the
conversion raises (`int(None)` raises `TypeError`). -/
def safe_int : PyVal → Int
  | PyVal.vint n => n
  | PyVal.vnone => 0

/-- A wallet whose fields are raw runtime values, as `app.py`'s codec
receives them. -/
structure PyWallet where
  platinum : PyVal
  gold : PyVal
  silver : PyVal
  copper : PyVal
deriving DecidableEq

/-- `app.py` lines 37-44: `convert_to_cp` guarding every field with `safe_int`. -/
def convert_to_cp_app (w : PyWallet) : Int :=
  safe_int w.platinum * 1000 + safe_int w.gold * 100 +
    safe_int w.silver * 10 + safe_int w.copper

/-- Python-level product `x * k`: multiplying `None` by an `int` raises
`TypeError`, modelled as `none`. -/
def pyTimes (v : PyVal) (k : Int) : Option Int :=
  match v with
  | PyVal.vint n => some (n * k)
  | PyVal.vnone => none

/-- Python-level `int` view of a bare field value (the unmultiplied
`copper` operand): `None` in an `int` addition raises `TypeError`. -/
def pyAsInt (v : PyVal) : Option Int :=
  match v with
  | PyVal.vint n => some n
  | PyVal.vnone => none

/-- `DnDwallet.py` lines 13-14: the unguarded
`convert_to_cp = platinum*1000 + gold*100 + silver*10 + copper` evaluated
on raw runtime values; a raised `TypeError` is `none`. -/
def convert_to_cp_py (platinum gold silver copper : PyVal) : Option Int := do
  let a ← pyTimes platinum 1000
  let b ← pyTimes gold 100
  let c ← pyTimes silver 10
  let d ← pyAsInt copper
  some (a + b + c + d)

/-! ### The in-session ledger engine of `DnDwallet.py` -/

/-- One entry of a profile's `history` list (`DnDwallet.py` lines 33-38).
The `time` field carries the `datetime.now()` timestamp string, supplied
here as an explicit parameter of the mutation. -/
structure HistRecord where
  time : String
  change : CurrencyAmount
  type : String
  label : String
deriving DecidableEq

/-- One value of the `st.session_state.profiles` dict: a wallet plus a
transaction history. -/
structure Profile where
  wallet : CurrencyAmount
  history : List HistRecord
deriving DecidableEq

/-- The `profiles` dict, as an insertion-ordered association list keyed by
character name. -/
abbrev Profiles := List (String × Profile)

/-- Python dict assignment `profiles[name] = p` for a key already present:
the value is replaced in place, order and other keys untouched. -/
def setProfile (ps : Profiles) (name : String) (p : Profile) : Profiles :=
  ps.map (fun kv => if kv.fst = name then (kv.fst, p) else kv)

/-- The observable outcome of `update_wallet`: the final `profiles` dict
and whether `st.error` was called (the insufficient-funds message). -/
structure UpdateResult where
  profiles : Profiles
  errorShown : Bool
deriving DecidableEq

/-- `DnDwallet.py` lines 23-38, `update_wallet(profile_name, change_cp, label)`:
looks the profile up (a missing key raises `KeyError`, modelled as `none`),
rejects a negative proposed total with an error and no mutation, and
otherwise writes the decomposed new total and appends a history record
whose `change` is the decomposition of `abs(change_cp)` and whose `type`
is `"Added"` exactly when `change_cp > 0`. -/
def update_wallet (ps : Profiles) (now : String) (profile_name : String)
    (change_cp : Int) (label : String) : Option UpdateResult :=
  match ps.lookup profile_name with
  | none => none
  | some prof =>
    let current_cp := convert_to_cp prof.wallet
    let new_total_cp := current_cp + change_cp
    if new_total_cp < 0 then
      some { profiles := ps, errorShown := true }
    else
      let new_wallet := convert_from_cp new_total_cp
      let rec0 : HistRecord :=
        { time := now
          change := convert_from_cp (abs change_cp)
          type := if change_cp > 0 then addedStr else deductedStr
          label := label }
      some { profiles := setProfile ps profile_name
               { wallet := new_wallet, history := prof.history ++ [rec0] }
             errorShown := false }

/-- `DnDwallet.py` lines 46-51, the Create Profile handler: only a
non-empty name not already present creates a zero wallet with empty
history; otherwise the dict is untouched. -/
def create_profile (ps : Profiles) (new_profile : String) : Profiles :=
  if new_profile ≠ emptyStr ∧ ps.lookup new_profile = none then
    ps ++ [(new_profile, { wallet := zeroAmount, history := [] })]
  else ps

/-- `DnDwallet.py` lines 79-82, the Submit Transaction handler: the signed
change is `±convert_to_cp` of the four entered quantities, sign chosen by
the `change_type` radio value. -/
def submit_transaction_dnd (ps : Profiles) (now : String) (selected_profile : String)
    (platinum gold silver copper : Int) (label : String) (change_type : String) :
    Option UpdateResult :=
  let multiplier : Int := if change_type = addStr then 1 else -1
  let total_change_cp :=
    multiplier * convert_to_cp { platinum := platinum, gold := gold, silver := silver, copper := copper }
  update_wallet ps now selected_profile total_change_cp label

/-- `DnDwallet.py` lines 101-104, the party-total fold: sum
`convert_to_cp` over every profile's wallet, then decompose. -/
def party_total (ps : Profiles) : CurrencyAmount :=
  convert_from_cp (ps.foldl (fun acc kv => acc + convert_to_cp kv.snd.wallet) 0)

/-! ### The Supabase ledger engine of `app.py` -/

/-- The row inserted into the `transactions` table (`app.py` lines 130-137). -/
structure TxnInsert where
  character_id : Int
  description : String
  platinum_change : Int
  gold_change : Int
  silver_change : Int
  copper_change : Int
deriving DecidableEq

/-- The observable effects of `update_wallet_supabase`: the inserted
transaction row (if any), the balance written to the `wallets` table
(if any), and the Python return value. -/
structure SupaEffects where
  inserted : Option TxnInsert
  updatedBalance : Option CurrencyAmount
  retval : Bool
deriving DecidableEq

/-- `app.py` lines 112-158, `update_wallet_supabase(character_wallet,
change_cp, label, txn_type)`: rejects a negative proposed total with
`False` and no writes; otherwise inserts a transaction row whose
per-denomination fields are the decomposition of `abs(change_cp)` negated
field-by-field when `txn_type` is not `"Add"`, updates the wallet row to
the decomposed new total, and returns `True`. Storage calls are modelled
as succeeding (the `except` branch is never taken). -/
def update_wallet_supabase (character_wallet : PyWallet) (wallet_id : Int)
    (change_cp : Int) (label : String) (txn_type : String) : SupaEffects :=
  let current_cp := convert_to_cp_app character_wallet
  if current_cp + change_cp < 0 then
    { inserted := none, updatedBalance := none, retval := false }
  else
    let change_amounts := convert_from_cp (abs change_cp)
    let txn : TxnInsert :=
      { character_id := wallet_id
        description := label
        platinum_change :=
          if txn_type = addStr then change_amounts.platinum else -change_amounts.platinum
        gold_change :=
          if txn_type = addStr then change_amounts.gold else -change_amounts.gold
        silver_change :=
          if txn_type = addStr then change_amounts.silver else -change_amounts.silver
        copper_change :=
          if txn_type = addStr then change_amounts.copper else -change_amounts.copper }
    let new_total_cp := current_cp + change_cp
    let new_balance := convert_from_cp new_total_cp
    { inserted := some txn, updatedBalance := some new_balance, retval := true }

/-- Python `str.strip()`: whitespace removed from both ends. -/
def pyStrip (s : String) : String :=
  String.mk (((s.data.dropWhile Char.isWhitespace).reverse.dropWhile Char.isWhitespace).reverse)

/-- The outcome of the `app.py` form-submit handler. -/
inductive SubmitOutcome where
  | emptyLabelError
  | zeroAmountError
  | applied (effects : SupaEffects)
deriving DecidableEq

/-- `app.py` lines 197-206, the Submit Transaction handler: an
all-whitespace label is rejected, then a zero `convert_to_cp` of the four
entered quantities is rejected before `update_wallet_supabase` is called;
otherwise the signed change (`±change_cp` by `txn_type`) is applied. -/
def submit_transaction (wallet : PyWallet) (wallet_id : Int)
    (platinum gold silver copper : Int) (label : String) (txn_type : String) :
    SubmitOutcome :=
  if pyStrip label = emptyStr then SubmitOutcome.emptyLabelError
  else
    let change_cp := convert_to_cp_app
      { platinum := PyVal.vint platinum, gold := PyVal.vint gold
        silver := PyVal.vint silver, copper := PyVal.vint copper }
    if change_cp = 0 then SubmitOutcome.zeroAmountError
    else
      let multiplier : Int := if txn_type = addStr then 1 else -1
      SubmitOutcome.applied
        (update_wallet_supabase wallet wallet_id (multiplier * change_cp) (pyStrip label) txn_type)

/-! ### Concrete inputs used by witnesses and counterexamples -/

def t0 : String := "2025-01-01 00:00:00"

def nmA : String := "Alice"

def lbl0 : String := "loot"

def oneGold : CurrencyAmount := { platinum := 0, gold := 1, silver := 0, copper := 0 }

def prof0 : Profile := { wallet := oneGold, history := [] }

def demoProfiles : Profiles := [(nmA, prof0)]

def wallet5g : PyWallet :=
  { platinum := PyVal.vint 0, gold := PyVal.vint 5
    silver := PyVal.vint 0, copper := PyVal.vint 0 }

def emptyPyWallet : PyWallet :=
  { platinum := PyVal.vint 0, gold := PyVal.vint 0
    silver := PyVal.vint 0, copper := PyVal.vint 0 }

/-! ### Round-trip helper -/

/-- The codec round trip: re-encoding a decomposition recovers the total,
for every integer total (floor division with positive divisors). -/
theorem convert_to_from_cp (n : Int) : convert_to_cp (convert_from_cp n) = n := by
  simp only [convert_to_cp, convert_from_cp]
  omega

/-- Claim C3: for every non-negative integer `n`, decomposing `n` with
`convert_from_cp` and re-encoding with `convert_to_cp` returns exactly `n`. -/
theorem roundtrip_nonneg (n : Int) (_h : 0 ≤ n) :
    convert_to_cp (convert_from_cp n) = n :=
  convert_to_from_cp n

theorem roundtrip_nonneg_witness :
    convert_to_cp (convert_from_cp 1234) = 1234 :=
  roundtrip_nonneg 1234 (by decide)

/-- Claim C10: the round trip `convert_to_cp (convert_from_cp n) = n` holds for
every integer `n`, not only non-negative ones, because the decomposition
uses floor division and non-negative remainders; for negative `n` the
platinum field is negative while gold, silver and copper stay in `[0, 9]`. -/
theorem roundtrip_all_int (n : Int) :
    convert_to_cp (convert_from_cp n) = n ∧
    (n < 0 → (convert_from_cp n).platinum < 0) ∧
    0 ≤ (convert_from_cp n).gold ∧ (convert_from_cp n).gold ≤ 9 ∧
    0 ≤ (convert_from_cp n).silver ∧ (convert_from_cp n).silver ≤ 9 ∧
    0 ≤ (convert_from_cp n).copper ∧ (convert_from_cp n).copper ≤ 9 := by
  refine ⟨convert_to_from_cp n, ?_⟩
  simp only [convert_from_cp]
  omega

theorem roundtrip_all_int_witness :
    convert_to_cp (convert_from_cp (-1234)) = -1234 ∧
    (convert_from_cp (-1234)).platinum < 0 := by
  refine ⟨(roundtrip_all_int (-1234)).1, ?_⟩
  exact (roundtrip_all_int (-1234)).2.1 (by decide)

/-- Claim C4: on a `CurrencyAmount` with non-negative fields, decoding the
encoded total yields the canonical positional decomposition: gold, silver
and copper land in `[0, 9]`, platinum is the total divided by 1000
(absorbing all overflow), and the decomposition still encodes the same
total. -/
theorem decompose_canonical (a : CurrencyAmount)
    (hp : 0 ≤ a.platinum) (hg : 0 ≤ a.gold) (hs : 0 ≤ a.silver) (hc : 0 ≤ a.copper) :
    (convert_from_cp (convert_to_cp a)).platinum = convert_to_cp a / 1000 ∧
    0 ≤ (convert_from_cp (convert_to_cp a)).platinum ∧
    0 ≤ (convert_from_cp (convert_to_cp a)).gold ∧
    (convert_from_cp (convert_to_cp a)).gold ≤ 9 ∧
    0 ≤ (convert_from_cp (convert_to_cp a)).silver ∧
    (convert_from_cp (convert_to_cp a)).silver ≤ 9 ∧
    0 ≤ (convert_from_cp (convert_to_cp a)).copper ∧
    (convert_from_cp (convert_to_cp a)).copper ≤ 9 ∧
    convert_to_cp (convert_from_cp (convert_to_cp a)) = convert_to_cp a := by
  refine ⟨rfl, ?_, ?_, ?_, ?_, ?_, ?_, ?_, convert_to_from_cp (convert_to_cp a)⟩ <;>
    · simp only [convert_from_cp, convert_to_cp]
      omega

theorem decompose_canonical_witness :
    (convert_from_cp (convert_to_cp { platinum := 1, gold := 25, silver := 3, copper := 47 })).platinum
        = convert_to_cp { platinum := 1, gold := 25, silver := 3, copper := 47 } / 1000 ∧
    (convert_from_cp (convert_to_cp { platinum := 1, gold := 25, silver := 3, copper := 47 })).gold ≤ 9 := by
  have h := decompose_canonical { platinum := 1, gold := 25, silver := 3, copper := 47 }
    (by decide) (by decide) (by decide) (by decide)
  exact ⟨h.1, h.2.2.2.1⟩

/-! ### Party total (C5) -/

/-- Folding addition of `f` over a list from an accumulator equals the
accumulator plus the sum of the mapped list. -/
theorem foldl_add_eq_sum {α : Type} (f : α → Int) (l : List α) (a : Int) :
    l.foldl (fun acc x => acc + f x) a = a + (l.map f).sum := by
  induction l generalizing a with
  | nil => simp
  | cons x xs ih =>
    simp only [List.foldl_cons, List.map_cons, List.sum_cons, ih]
    ring

/-- Claim C5: the party total is `convert_from_cp` of the sum over all
profiles of `convert_to_cp` of that profile's wallet. (`party_total` is a
pure function of the profiles, so computing it has no effect on wallets
or histories.) -/
theorem party_total_is_sum (ps : Profiles) :
    party_total ps = convert_from_cp ((ps.map (fun kv => convert_to_cp kv.snd.wallet)).sum) := by
  unfold party_total
  rw [foldl_add_eq_sum (fun kv => convert_to_cp kv.snd.wallet) ps 0, zero_add]

/-! ### Registration (C9) -/

/-- Claim C9: the Create Profile handler leaves the profiles dict entirely
unchanged (hence every existing wallet's balance and history unchanged)
when the requested name is already present, and likewise creates nothing
when the name is empty. -/
theorem register_duplicate_or_empty_noop :
    (∀ (ps : Profiles) (name : String),
        (ps.lookup name).isSome = true → create_profile ps name = ps) ∧
    (∀ ps : Profiles, create_profile ps emptyStr = ps) := by
  constructor
  · intro ps name h
    have hcon : ¬ (name ≠ emptyStr ∧ ps.lookup name = none) := by
      intro hcon
      rw [hcon.2] at h
      simp at h
    simp only [create_profile, if_neg hcon]
  · intro ps
    have hcon : ¬ (emptyStr ≠ emptyStr ∧ ps.lookup emptyStr = none) := by
      intro hcon
      exact hcon.1 rfl
    simp only [create_profile, if_neg hcon]

theorem register_duplicate_or_empty_noop_witness :
    create_profile demoProfiles nmA = demoProfiles ∧
    create_profile demoProfiles emptyStr = demoProfiles := by
  refine ⟨register_duplicate_or_empty_noop.1 demoProfiles nmA (by decide), ?_⟩
  exact register_duplicate_or_empty_noop.2 demoProfiles

/-! ### Insufficient funds and non-negativity (C1) -/

/-- Claim C1: in both variants a deduction that would drive the base-unit
total negative is rejected with the insufficient-funds error and no state
change at all, and no successful operation ever writes a wallet whose
base-unit total is negative: `update_wallet` preserves non-negativity of
every profile's wallet, and every balance `update_wallet_supabase` writes
encodes a non-negative total. -/
theorem insufficient_funds_atomic :
    (∀ (ps : Profiles) (now name : String) (change_cp : Int) (label : String) (prof : Profile),
        ps.lookup name = some prof →
        convert_to_cp prof.wallet + change_cp < 0 →
        update_wallet ps now name change_cp label =
          some { profiles := ps, errorShown := true }) ∧
    (∀ (ps : Profiles) (now name : String) (change_cp : Int) (label : String) (res : UpdateResult),
        (∀ kv ∈ ps, 0 ≤ convert_to_cp kv.snd.wallet) →
        update_wallet ps now name change_cp label = some res →
        ∀ kv ∈ res.profiles, 0 ≤ convert_to_cp kv.snd.wallet) ∧
    (∀ (w : PyWallet) (wallet_id change_cp : Int) (label txn_type : String),
        convert_to_cp_app w + change_cp < 0 →
        update_wallet_supabase w wallet_id change_cp label txn_type =
          { inserted := none, updatedBalance := none, retval := false }) ∧
    (∀ (w : PyWallet) (wallet_id change_cp : Int) (label txn_type : String) (b : CurrencyAmount),
        (update_wallet_supabase w wallet_id change_cp label txn_type).updatedBalance = some b →
        0 ≤ convert_to_cp b) := by
  refine ⟨?_, ?_, ?_, ?_⟩
  · intro ps now name change_cp label prof hl hneg
    simp only [update_wallet, hl]
    rw [if_pos hneg]
  · intro ps now name change_cp label res hall hupd kv hkv
    cases hl : ps.lookup name with
    | none =>
      simp only [update_wallet, hl] at hupd
      exact absurd hupd (by simp)
    | some prof =>
      simp only [update_wallet, hl] at hupd
      by_cases hneg : convert_to_cp prof.wallet + change_cp < 0
      · rw [if_pos hneg] at hupd
        have hres := Option.some.inj hupd
        subst hres
        exact hall kv hkv
      · rw [if_neg hneg] at hupd
        have hres := Option.some.inj hupd
        subst hres
        simp only [setProfile, List.mem_map] at hkv
        obtain ⟨kv0, hkv0, hkveq⟩ := hkv
        by_cases he : kv0.fst = name
        · rw [if_pos he] at hkveq
          subst hkveq
          show 0 ≤ convert_to_cp (convert_from_cp (convert_to_cp prof.wallet + change_cp))
          rw [convert_to_from_cp]
          omega
        · rw [if_neg he] at hkveq
          subst hkveq
          exact hall kv0 hkv0
  · intro w wallet_id change_cp label txn_type hneg
    simp only [update_wallet_supabase]
    rw [if_pos hneg]
  · intro w wallet_id change_cp label txn_type b hb
    simp only [update_wallet_supabase] at hb
    by_cases hneg : convert_to_cp_app w + change_cp < 0
    · rw [if_pos hneg] at hb
      exact absurd hb (by simp)
    · rw [if_neg hneg] at hb
      have hbe := Option.some.inj hb
      subst hbe
      rw [convert_to_from_cp]
      omega

theorem insufficient_funds_atomic_witness :
    update_wallet demoProfiles t0 nmA (-200) lbl0 =
      some { profiles := demoProfiles, errorShown := true } ∧
    0 ≤ convert_to_cp (nmA, prof0).snd.wallet ∧
    update_wallet_supabase emptyPyWallet 1 (-1) lbl0 deductStr =
      { inserted := none, updatedBalance := none, retval := false } ∧
    0 ≤ convert_to_cp { platinum := 0, gold := 5, silver := 5, copper := 0 } := by
  refine ⟨insufficient_funds_atomic.1 demoProfiles t0 nmA (-200) lbl0 prof0 (by decide) (by decide),
    insufficient_funds_atomic.2.1 demoProfiles t0 nmA (-200) lbl0
      { profiles := demoProfiles, errorShown := true } (by decide) (by decide) (nmA, prof0) (by decide),
    insufficient_funds_atomic.2.2.1 emptyPyWallet 1 (-1) lbl0 deductStr (by decide),
    insufficient_funds_atomic.2.2.2 wallet5g 1 50 lbl0 addStr
      { platinum := 0, gold := 5, silver := 5, copper := 0 } (by decide)⟩

/-! ### Zero-amount transactions (C2) -/

/-- Claim C2 counterexample: `update_wallet` of `DnDwallet.py` has no
zero-amount check. Applied to a one-gold wallet with empty history and
`change_cp = 0`, it succeeds, rewrites the wallet, and appends a history
record (typed `"Deducted"`), instead of rejecting the transaction and
leaving the history without a new record. -/
theorem zero_txn_counterexample :
    update_wallet demoProfiles t0 nmA 0 lbl0 =
      some { profiles := [(nmA, { wallet := oneGold
                                  history := [{ time := t0, change := zeroAmount
                                                type := deductedStr, label := lbl0 }] })]
             errorShown := false } ∧
    prof0.history = [] := by
  constructor <;> decide

/-- Claim C2 amended: only the `app.py` form handler rejects zero amounts,
and it does so before `update_wallet_supabase` is invoked (no insert, no
balance write); `DnDwallet.py`'s engine accepts a zero change, rewriting
the wallet in place and appending a `"Deducted"` record of zero magnitude. -/
theorem zero_txn_amended :
    (∀ (ps : Profiles) (now name label : String) (prof : Profile),
        ps.lookup name = some prof →
        0 ≤ convert_to_cp prof.wallet →
        update_wallet ps now name 0 label =
          some { profiles := setProfile ps name
                   { wallet := convert_from_cp (convert_to_cp prof.wallet)
                     history := prof.history ++
                       [{ time := now, change := zeroAmount
                          type := deductedStr, label := label }] }
                 errorShown := false }) ∧
    (∀ (w : PyWallet) (wallet_id : Int) (label txn_type : String),
        pyStrip label ≠ emptyStr →
        submit_transaction w wallet_id 0 0 0 0 label txn_type =
          SubmitOutcome.zeroAmountError) := by
  constructor
  · intro ps now name label prof hl hnn
    have hne : ¬ convert_to_cp prof.wallet + 0 < 0 := by omega
    simp only [update_wallet, hl]
    rw [if_neg hne, add_zero, abs_zero,
      (by decide : convert_from_cp (0 : Int) = zeroAmount),
      if_neg (by decide : ¬ ((0 : Int) > 0))]
  · intro w wallet_id label txn_type hlabel
    simp only [submit_transaction]
    rw [if_neg hlabel, if_pos (by decide)]

theorem zero_txn_amended_witness :
    update_wallet demoProfiles t0 nmA 0 lbl0 =
      some { profiles := setProfile demoProfiles nmA
               { wallet := convert_from_cp (convert_to_cp prof0.wallet)
                 history := prof0.history ++
                   [{ time := t0, change := zeroAmount
                      type := deductedStr, label := lbl0 }] }
             errorShown := false } ∧
    submit_transaction emptyPyWallet 1 0 0 0 0 lbl0 addStr =
      SubmitOutcome.zeroAmountError := by
  exact ⟨zero_txn_amended.1 demoProfiles t0 nmA lbl0 prof0 (by decide) (by decide),
    zero_txn_amended.2 emptyPyWallet 1 lbl0 addStr (by decide)⟩

/-! ### Record contents on success (C6) -/

/-- Claim C6 counterexample: for a deduction of one gold from a five-gold
wallet, `update_wallet_supabase` inserts a transaction row whose
per-denomination fields are signed (`gold_change = -1`), not the unsigned
magnitude decomposition of `|delta|` (which is one gold). -/
theorem signed_record_counterexample :
    (update_wallet_supabase wallet5g 1 (-100) lbl0 deductStr).inserted =
      some { character_id := 1, description := lbl0
             platinum_change := 0, gold_change := -1
             silver_change := 0, copper_change := 0 } ∧
    convert_from_cp (abs (-100 : Int)) =
      { platinum := 0, gold := 1, silver := 0, copper := 0 } := by
  constructor <;> decide

/-- Claim C6 amended: on every successful transaction both variants set
the new balance to `convert_from_cp (current + delta)`. The appended
`DnDwallet.py` history record stores the unsigned magnitude decomposition
`convert_from_cp (abs delta)` — which re-encodes to `abs delta` — but its
direction label is `"Added"` exactly when the signed change is strictly
positive (a zero-amount `Add` is labelled `"Deducted"`). The `app.py`
transaction row instead stores signed per-field values: the magnitude
decomposition as is for `"Add"` and negated field-by-field otherwise,
with no separate direction label. -/
theorem success_record_amended :
    (∀ (ps : Profiles) (now name : String) (change_cp : Int) (label : String) (prof : Profile),
        ps.lookup name = some prof →
        0 ≤ convert_to_cp prof.wallet + change_cp →
        update_wallet ps now name change_cp label =
          some { profiles := setProfile ps name
                   { wallet := convert_from_cp (convert_to_cp prof.wallet + change_cp)
                     history := prof.history ++
                       [{ time := now, change := convert_from_cp (abs change_cp)
                          type := if change_cp > 0 then addedStr else deductedStr
                          label := label }] }
                 errorShown := false } ∧
        convert_to_cp (convert_from_cp (abs change_cp)) = abs change_cp) ∧
    (∀ (w : PyWallet) (wallet_id change_cp : Int) (label : String),
        0 ≤ convert_to_cp_app w + change_cp →
        update_wallet_supabase w wallet_id change_cp label addStr =
          { inserted := some { character_id := wallet_id, description := label
                               platinum_change := (convert_from_cp (abs change_cp)).platinum
                               gold_change := (convert_from_cp (abs change_cp)).gold
                               silver_change := (convert_from_cp (abs change_cp)).silver
                               copper_change := (convert_from_cp (abs change_cp)).copper }
            updatedBalance := some (convert_from_cp (convert_to_cp_app w + change_cp))
            retval := true }) ∧
    (∀ (w : PyWallet) (wallet_id change_cp : Int) (label : String),
        0 ≤ convert_to_cp_app w + change_cp →
        update_wallet_supabase w wallet_id change_cp label deductStr =
          { inserted := some { character_id := wallet_id, description := label
                               platinum_change := -(convert_from_cp (abs change_cp)).platinum
                               gold_change := -(convert_from_cp (abs change_cp)).gold
                               silver_change := -(convert_from_cp (abs change_cp)).silver
                               copper_change := -(convert_from_cp (abs change_cp)).copper }
            updatedBalance := some (convert_from_cp (convert_to_cp_app w + change_cp))
            retval := true }) := by
  refine ⟨?_, ?_, ?_⟩
  · intro ps now name change_cp label prof hl hnn
    have hne : ¬ convert_to_cp prof.wallet + change_cp < 0 := by omega
    constructor
    · simp only [update_wallet, hl]
      rw [if_neg hne]
    · exact convert_to_from_cp (abs change_cp)
  · intro w wallet_id change_cp label hnn
    have hne : ¬ convert_to_cp_app w + change_cp < 0 := by omega
    simp only [update_wallet_supabase]
    rw [if_neg hne]
    simp
  · intro w wallet_id change_cp label hnn
    have hne : ¬ convert_to_cp_app w + change_cp < 0 := by omega
    have hd : ¬ deductStr = addStr := by decide
    simp only [update_wallet_supabase]
    rw [if_neg hne]
    simp [if_neg hd]

theorem success_record_amended_witness :
    update_wallet demoProfiles t0 nmA 250 lbl0 =
      some { profiles := setProfile demoProfiles nmA
               { wallet := convert_from_cp (convert_to_cp prof0.wallet + 250)
                 history := prof0.history ++
                   [{ time := t0, change := convert_from_cp (abs (250 : Int))
                      type := if (250 : Int) > 0 then addedStr else deductedStr
                      label := lbl0 }] }
             errorShown := false } ∧
    (update_wallet_supabase wallet5g 2 30 lbl0 addStr).retval = true ∧
    (update_wallet_supabase wallet5g 2 (-30) lbl0 deductStr).retval = true := by
  refine ⟨(success_record_amended.1 demoProfiles t0 nmA 250 lbl0 prof0 (by decide) (by decide)).1,
    ?_, ?_⟩
  · rw [success_record_amended.2.1 wallet5g 2 30 lbl0 (by decide)]
  · rw [success_record_amended.2.2 wallet5g 2 (-30) lbl0 (by decide)]

/-! ### Codec totality on malformed input (C7) -/

/-- Claim C7 counterexample: the unguarded `convert_to_cp` of
`DnDwallet.py` raises `TypeError` (modelled as `none`) when the platinum
field is the non-numeric value `None`; it is not total on malformed
fields. -/
theorem codec_raises_counterexample :
    convert_to_cp_py PyVal.vnone (PyVal.vint 0) (PyVal.vint 0) (PyVal.vint 0) = none := by
  decide

/-- Claim C7 amended: only the `app.py` codec is total on malformed
fields — `safe_int` coerces a non-numeric field to 0, so replacing any
`None` field by the integer 0 leaves its result unchanged. The
`DnDwallet.py` codec agrees with the pure integer codec on all-integer
fields, but raises (returns `none`) whenever any field is non-numeric. -/
theorem codec_coercion_amended :
    (∀ g s c : PyVal,
        convert_to_cp_app { platinum := PyVal.vnone, gold := g, silver := s, copper := c } =
          convert_to_cp_app { platinum := PyVal.vint 0, gold := g, silver := s, copper := c }) ∧
    (∀ p s c : PyVal,
        convert_to_cp_app { platinum := p, gold := PyVal.vnone, silver := s, copper := c } =
          convert_to_cp_app { platinum := p, gold := PyVal.vint 0, silver := s, copper := c }) ∧
    (∀ p g c : PyVal,
        convert_to_cp_app { platinum := p, gold := g, silver := PyVal.vnone, copper := c } =
          convert_to_cp_app { platinum := p, gold := g, silver := PyVal.vint 0, copper := c }) ∧
    (∀ p g s : PyVal,
        convert_to_cp_app { platinum := p, gold := g, silver := s, copper := PyVal.vnone } =
          convert_to_cp_app { platinum := p, gold := g, silver := s, copper := PyVal.vint 0 }) ∧
    (∀ p g s c : Int,
        convert_to_cp_py (PyVal.vint p) (PyVal.vint g) (PyVal.vint s) (PyVal.vint c) =
          some (convert_to_cp { platinum := p, gold := g, silver := s, copper := c })) ∧
    (∀ p g s c : PyVal,
        (p = PyVal.vnone ∨ g = PyVal.vnone ∨ s = PyVal.vnone ∨ c = PyVal.vnone) →
        convert_to_cp_py p g s c = none) := by
  refine ⟨fun g s c => rfl, fun p s c => rfl, fun p g c => rfl, fun p g s => rfl,
    fun p g s c => rfl, ?_⟩
  intro p g s c h
  rcases h with h | h | h | h
  · subst h; rfl
  · subst h; cases p <;> rfl
  · subst h; cases p <;> cases g <;> rfl
  · subst h; cases p <;> cases g <;> cases s <;> rfl

theorem codec_coercion_amended_witness :
    convert_to_cp_app { platinum := PyVal.vnone, gold := PyVal.vint 2
                        silver := PyVal.vint 3, copper := PyVal.vint 4 } =
      convert_to_cp_app { platinum := PyVal.vint 0, gold := PyVal.vint 2
                          silver := PyVal.vint 3, copper := PyVal.vint 4 } ∧
    convert_to_cp_py (PyVal.vint 1) PyVal.vnone (PyVal.vint 0) (PyVal.vint 0) = none := by
  exact ⟨codec_coercion_amended.1 (PyVal.vint 2) (PyVal.vint 3) (PyVal.vint 4),
    codec_coercion_amended.2.2.2.2.2 (PyVal.vint 1) PyVal.vnone (PyVal.vint 0) (PyVal.vint 0)
      (Or.inr (Or.inl rfl))⟩

/-! ### Return value of a successful transaction (C8) -/

/-- Claim C8 counterexample: two successful `update_wallet_supabase` runs
that write different resulting balances return the identical value
(`True`), so the return value is a success flag carrying no balance, not
the resulting `CurrencyAmount`. -/
theorem retval_counterexample :
    (update_wallet_supabase emptyPyWallet 1 100 lbl0 addStr).retval =
      (update_wallet_supabase emptyPyWallet 1 200 lbl0 addStr).retval ∧
    (update_wallet_supabase emptyPyWallet 1 100 lbl0 addStr).updatedBalance ≠
      (update_wallet_supabase emptyPyWallet 1 200 lbl0 addStr).updatedBalance := by
  constructor <;> decide

/-- Claim C8 amended: `update_wallet_supabase` returns a Boolean success
flag — `True` exactly when the proposed total is non-negative — and on
success the resulting balance `convert_from_cp (current + delta)` is
written to storage, not returned (`DnDwallet.py`'s `update_wallet` has no
return value at all). -/
theorem supabase_retval_flag :
    ∀ (w : PyWallet) (wallet_id change_cp : Int) (label txn_type : String),
      ((update_wallet_supabase w wallet_id change_cp label txn_type).retval = true ↔
        0 ≤ convert_to_cp_app w + change_cp) ∧
      ((update_wallet_supabase w wallet_id change_cp label txn_type).retval = true →
        (update_wallet_supabase w wallet_id change_cp label txn_type).updatedBalance =
          some (convert_from_cp (convert_to_cp_app w + change_cp))) := by
  intro w wallet_id change_cp label txn_type
  by_cases hneg : convert_to_cp_app w + change_cp < 0
  · have hres : update_wallet_supabase w wallet_id change_cp label txn_type =
        { inserted := none, updatedBalance := none, retval := false } := by
      simp only [update_wallet_supabase]
      rw [if_pos hneg]
    rw [hres]
    refine ⟨⟨fun h => absurd h (by decide), fun h => absurd hneg (by omega)⟩,
      fun h => absurd h (by decide)⟩
  · refine ⟨⟨fun _ => by omega, fun _ => ?_⟩, fun _ => ?_⟩
    · show (update_wallet_supabase w wallet_id change_cp label txn_type).retval = true
      simp only [update_wallet_supabase]
      rw [if_neg hneg]
    · show (update_wallet_supabase w wallet_id change_cp label txn_type).updatedBalance =
        some (convert_from_cp (convert_to_cp_app w + change_cp))
      simp only [update_wallet_supabase]
      rw [if_neg hneg]

theorem supabase_retval_flag_witness :
    (update_wallet_supabase emptyPyWallet 1 100 lbl0 addStr).retval = true ∧
    (update_wallet_supabase emptyPyWallet 1 100 lbl0 addStr).updatedBalance =
      some (convert_from_cp (convert_to_cp_app emptyPyWallet + 100)) := by
  refine ⟨(supabase_retval_flag emptyPyWallet 1 100 lbl0 addStr).1.mpr (by decide), ?_⟩
  exact (supabase_retval_flag emptyPyWallet 1 100 lbl0 addStr).2
    ((supabase_retval_flag emptyPyWallet 1 100 lbl0 addStr).1.mpr (by decide))
